import Mathlib

set_option maxRecDepth 16000

/-
Verification development for the deterministic core of a pharmacy-ordering
backend: the rule-based medicine parser (agents/medicine_parser.py) and the
depletion forecaster (agents/forecast_agent.py).

Embedding conventions:
  * Calendar dates are modelled as unbounded integers counting days
    (pd.to_datetime differences in whole days); the caller is assumed to
    supply already-parsed dates.
  * IEEE-754 double arithmetic used by pandas/numpy is modelled by `PFloat`:
    exact rationals extended with nan / +inf / -inf, with the IEEE rules for
    division by zero, comparisons against nan, and infinity propagation that
    the forecaster pipeline can actually reach.  Rounding error of binary
    floats is below the resolution of every statement proved here.
  * Text is modelled as lists of characters with ASCII semantics for
    str.lower / str.isupper / regex character classes (the regexes in the
    source use ASCII-only constructs on the inputs of interest).
  * Fallible operations (dict lookup, timedelta construction from nan/inf)
    are modelled with Except; the source's try/except wrappers become total
    functions mapping errors to the documented fallback value.
-/

/-- PFloat models the values an IEEE double can take in the forecaster's
pipeline: an exact rational, nan, or a signed infinity. -/
inductive PFloat where
  | nan : PFloat
  | inf : PFloat
  | ninf : PFloat
  | val : ℚ → PFloat
deriving DecidableEq, Repr

/-- Predicate picking out nan, mirroring pandas dropna. -/
def PFloat.isNan : PFloat → Bool
  | .nan => true
  | _ => false

/-- IEEE addition restricted to the cases reachable in the pipeline:
nan propagates, inf + (-inf) is nan, inf absorbs finite values. -/
def PFloat.add : PFloat → PFloat → PFloat
  | .nan, _ => .nan
  | _, .nan => .nan
  | .inf, .ninf => .nan
  | .ninf, .inf => .nan
  | .inf, _ => .inf
  | _, .inf => .inf
  | .ninf, _ => .ninf
  | _, .ninf => .ninf
  | .val a, .val b => .val (a + b)

/-- IEEE division: finite / 0 gives a signed infinity (or nan for 0/0),
finite / inf gives 0, nan propagates.  This is what numpy does for the
pandas column divisions in `_calculate_consumption_rate`. -/
def PFloat.div : PFloat → PFloat → PFloat
  | .nan, _ => .nan
  | _, .nan => .nan
  | .val a, .val b =>
      if b = 0 then (if 0 < a then .inf else if a < 0 then .ninf else .nan)
      else .val (a / b)
  | .val _, .inf => .val 0
  | .val _, .ninf => .val 0
  | .inf, .val b => if 0 ≤ b then .inf else .ninf
  | .ninf, .val b => if 0 ≤ b then .ninf else .inf
  | .inf, _ => .nan
  | .ninf, _ => .nan

/-- IEEE `> 0` as a Bool: true for +inf, false for nan. -/
def PFloat.gt0 : PFloat → Bool
  | .inf => true
  | .val q => decide (0 < q)
  | _ => false

/-- IEEE `<= 0` as a Bool: false for nan (all nan comparisons are false),
false for +inf, true for -inf. -/
def PFloat.le0 : PFloat → Bool
  | .ninf => true
  | .val q => decide (q ≤ 0)
  | _ => false

/-- Sum of a float series (pandas .sum over an already dropna'd series). -/
def psum (l : List PFloat) : PFloat := l.foldr PFloat.add (.val 0)

/-- Mean of a float series: sum divided by length (nan for the empty list,
as in pandas). -/
def pmean (l : List PFloat) : PFloat := PFloat.div (psum l) (.val (l.length : ℚ))

/-- Python round(x, 2).  Mathlib's `round` rounds halves up while Python
rounds the underlying binary float to even; the two agree except at exact
multiples of 1/200, which no statement below touches. -/
def roundQ2 (q : ℚ) : ℚ := ((round (q * 100) : ℤ) : ℚ) / 100

/-- round(x, 2) lifted to PFloat (round(inf, 2) = inf, round(nan, 2) = nan). -/
def pround2 : PFloat → PFloat
  | .val q => .val (roundQ2 q)
  | x => x

/-- Whole days contributed by timedelta(days=f) when added to a date:
Python normalises the fractional part into seconds, so the date moves by
floor(f) days.  timedelta(days=nan) / timedelta(days=inf) raise, modelled
as none. -/
def pfloorDays : PFloat → Option ℤ
  | .val q => some ⌊q⌋
  | _ => none

/-- Python int() on an exact rational: truncation toward zero, as applied
by `int(np.mean(recent_orders))`. -/
def truncQ (q : ℚ) : ℤ := q.num / (q.den : ℤ)

/-- Square root used inside the coefficient-of-variation computation.
Models numpy's float sqrt; it is exact whenever num*den is a perfect
square, which covers every concrete history appearing in the theorems
below (their interval variance is 0). -/
def ratSqrt (q : ℚ) : ℚ :=
  if q ≤ 0 then 0 else ((Nat.sqrt (q.num.toNat * q.den) : ℚ) / (q.den : ℚ))

/-- models/prediction.py PredictionConfidence. -/
inductive PredictionConfidence where
  | low : PredictionConfidence
  | medium : PredictionConfidence
  | high : PredictionConfidence
deriving DecidableEq, Repr

/-- core/config.py: PREDICTION_MIN_ORDERS = 3. -/
def PREDICTION_MIN_ORDERS : ℕ := 3

/-- core/config.py: PREDICTION_CONFIDENCE_THRESHOLD = 0.7. -/
def PREDICTION_CONFIDENCE_THRESHOLD : ℚ := 7 / 10

/-- One order-history record handed to the forecaster: a (pre-parsed)
order date in days, an integer quantity, and an optional medicine name. -/
structure OrderEntry where
  order_date : ℤ
  quantity : ℤ
  medicine_name : Option String := none
deriving DecidableEq, Repr

/-- Date comparison used as the sort key of df.sort_values('order_date'). -/
def dateLE (a b : OrderEntry) : Prop := a.order_date ≤ b.order_date

instance : DecidableRel dateLE := fun a b => Int.decLe a.order_date b.order_date

instance : IsTotal OrderEntry dateLE := ⟨fun a b => Int.le_total a.order_date b.order_date⟩

instance : IsTrans OrderEntry dateLE := ⟨fun _ _ _ => Int.le_trans⟩

/-- df.sort_values('order_date').  pandas' default quicksort is
deterministic but leaves the relative order of equal dates unspecified;
insertion sort is one valid refinement, and no theorem below depends on
the order of tied dates. -/
def sortByDate (l : List OrderEntry) : List OrderEntry := List.insertionSort dateLE l

/-- Consecutive pairs of a date-sorted frame: element i-1 paired with
element i, i = 1..n-1 (the rows surviving diff/shift + dropna). -/
def consecPairs (df : List OrderEntry) : List (OrderEntry × OrderEntry) := df.zip df.tail

namespace ForecastAgent

/-- ForecastAgent._calculate_consumption_rate: per consecutive pair, the
previous quantity divided by the day gap; drop nan, keep strictly positive
values (note +inf from a zero-day gap passes this filter), average the
rest; 0.0 when fewer than 2 rows or no valid value remains. -/
def calculate_consumption_rate (df : List OrderEntry) : PFloat :=
  if df.length < 2 then .val 0
  else
    let rates := (consecPairs df).map fun p =>
      PFloat.div (.val (p.1.quantity : ℚ)) (.val ((p.2.order_date - p.1.order_date : ℤ) : ℚ))
    let valid := (rates.filter (fun r => !r.isNan)).filter PFloat.gt0
    if valid.length = 0 then .val 0 else pmean valid

/-- ForecastAgent._calculate_confidence: coefficient of variation of the
inter-order day gaps, mapped through max(0, min(1, 1 - cv)); 0.5 when
there are fewer than 2 rows, no interval, or a non-positive mean gap.
With exactly one interval pandas' sample std is nan, and Python's
min(1.0, nan) returns its first argument, so the clamp yields 1.0. -/
def calculate_confidence (df : List OrderEntry) : ℚ :=
  if df.length < 2 then 1 / 2
  else
    let intervals := (consecPairs df).map fun p => p.2.order_date - p.1.order_date
    if intervals.length = 0 then 1 / 2
    else
      let mean_interval : ℚ := ((intervals.sum : ℤ) : ℚ) / (intervals.length : ℚ)
      if 0 < mean_interval then
        if intervals.length = 1 then 1
        else
          let variance : ℚ :=
            (intervals.map fun x => ((x : ℚ) - mean_interval) ^ 2).sum /
              ((intervals.length : ℚ) - 1)
          let cv := ratSqrt variance / mean_interval
          max 0 (min 1 (1 - cv))
      else 1 / 2

/-- ForecastAgent._get_confidence_level. -/
def get_confidence_level (score : ℚ) : PredictionConfidence :=
  if PREDICTION_CONFIDENCE_THRESHOLD ≤ score then .high
  else if 1 / 2 ≤ score then .medium
  else .low

end ForecastAgent

/-- df.tail(n): the last n elements of the sorted frame. -/
def lastN (n : ℕ) (l : List α) : List α := l.drop (l.length - n)

/-- The prediction record assembled by ForecastAgent.predict_depletion. -/
structure DepletionPrediction where
  user_id : String
  medicine_id : String
  medicine_name : String
  average_consumption_rate : PFloat
  last_order_date : ℤ
  last_order_quantity : ℤ
  predicted_depletion_date : ℤ
  suggested_reorder_date : ℤ
  suggested_quantity : ℤ
  confidence : PredictionConfidence
  confidence_score : ℚ
  historical_data : List OrderEntry
deriving DecidableEq, Repr

namespace ForecastAgent

/-- Body of ForecastAgent.predict_depletion (the code inside the try:).
`today` stands for date.today().  The two error exits model the only
operations in the body that can raise on well-typed input: positional
access into an empty frame and timedelta(days=nan/inf). -/
def predict_depletionE (today : ℤ) (user_id medicine_id : String)
    (order_history : List OrderEntry) : Except String (Option DepletionPrediction) :=
  if order_history.length < PREDICTION_MIN_ORDERS then .ok none
  else
    let df := sortByDate order_history
    let consumption_rate := calculate_consumption_rate df
    if consumption_rate.le0 then .ok none
    else
      match df.getLast? with
      | none => .error "single positional indexer is out-of-bounds"
      | some last_order =>
        let days_to_deplete := PFloat.div (.val (last_order.quantity : ℚ)) consumption_rate
        match pfloorDays days_to_deplete with
        | none => .error "timedelta out of range"
        | some d =>
          let predicted_depletion_date := last_order.order_date + d
          let suggested_reorder_date := predicted_depletion_date - 7
          let confidence_score := calculate_confidence df
          let recent_orders := (lastN 3 df).map (·.quantity)
          let suggested_quantity :=
            truncQ (((recent_orders.sum : ℤ) : ℚ) / (recent_orders.length : ℚ))
          .ok (some
            { user_id := user_id
              medicine_id := medicine_id
              medicine_name := last_order.medicine_name.getD ""
              average_consumption_rate := pround2 consumption_rate
              last_order_date := last_order.order_date
              last_order_quantity := last_order.quantity
              predicted_depletion_date := predicted_depletion_date
              suggested_reorder_date := max suggested_reorder_date today
              suggested_quantity := suggested_quantity
              confidence := get_confidence_level confidence_score
              confidence_score := roundQ2 confidence_score
              historical_data := order_history })

/-- ForecastAgent.predict_depletion: the try/except wrapper converting any
internal error to None. -/
def predict_depletion (today : ℤ) (user_id medicine_id : String)
    (order_history : List OrderEntry) : Option DepletionPrediction :=
  match predict_depletionE today user_id medicine_id order_history with
  | .ok r => r
  | .error _ => none

end ForecastAgent

/-- Input of should_notify_user: a prediction dict whose keys may be
absent.  A missing 'predicted_depletion_date' raises KeyError inside the
try:, a missing 'confidence' yields None via .get (which simply compares
unequal to HIGH). -/
structure NotifyInput where
  predicted_depletion_date : Option ℤ
  confidence : Option PredictionConfidence
deriving DecidableEq, Repr

namespace ForecastAgent

/-- Body of ForecastAgent.should_notify_user (inside the try:). -/
def should_notify_userE (today : ℤ) (prediction : NotifyInput) : Except String Bool :=
  match prediction.predicted_depletion_date with
  | none => .error "KeyError: predicted_depletion_date"
  | some d =>
    let days_until_depletion := d - today
    .ok (decide (days_until_depletion ≤ 7) && decide (0 ≤ days_until_depletion) &&
      decide (prediction.confidence = some .high))

/-- ForecastAgent.should_notify_user: the try/except wrapper converting
any internal error to False. -/
def should_notify_user (today : ℤ) (prediction : NotifyInput) : Bool :=
  match should_notify_userE today prediction with
  | .ok b => b
  | .error _ => false

end ForecastAgent

/-- Python \w for ASCII text: letters, digits, underscore. -/
def isWordCh (c : Char) : Bool := c.isAlphanum || c = '_'

/-- Python \s for ASCII text. -/
def isSpaceCh (c : Char) : Bool :=
  c = ' ' || c = '\t' || c = '\n' || c = '\r' || c = '\x0b' || c = '\x0c'

/-- str.lower for ASCII text. -/
def lowerStr (l : List Char) : List Char := l.map Char.toLower

/-- Does the first list occur as a prefix of the second? -/
def startsWithL : List Char → List Char → Bool
  | [], _ => true
  | _ :: _, [] => false
  | p :: ps, c :: cs => p = c && startsWithL ps cs

/-- Python substring containment `pat in text`. -/
def containsSub (pat : List Char) : List Char → Bool
  | [] => startsWithL pat []
  | c :: cs => startsWithL pat (c :: cs) || containsSub pat cs

/-- The greeting tokens of medicine_parser.parse_message. -/
def greetings : List String :=
  ["hello", "hi", "hey", "good morning", "good afternoon", "good evening"]

/-- The COMMON_MEDICINES alias table, in source (dict insertion) order. -/
def COMMON_MEDICINES : List (String × List String) :=
  [("paracetamol", ["paracetamol", "tylenol", "acetaminophen", "paracitamol"]),
   ("ibuprofen", ["ibuprofen", "advil", "motrin", "brufen"]),
   ("aspirin", ["aspirin", "aspirine", "acetylsalicylic"]),
   ("amoxicillin", ["amoxicillin", "amoxycillin", "amoxy"]),
   ("metformin", ["metformin", "glucophage"]),
   ("omeprazole", ["omeprazole", "prilosec"]),
   ("lisinopril", ["lisinopril", "prinivil", "zestril"]),
   ("atorvastatin", ["atorvastatin", "lipitor"]),
   ("amlodipine", ["amlodipine", "norvasc"]),
   ("metoprolol", ["metoprolol", "lopressor"]),
   ("losartan", ["losartan", "cozaar"]),
   ("gabapentin", ["gabapentin", "neurontin"]),
   ("hydrochlorothiazide", ["hydrochlorothiazide", "hctz"]),
   ("sertraline", ["sertraline", "zoloft"]),
   ("simvastatin", ["simvastatin", "zocor"]),
   ("vitamin d", ["vitamin d", "vit d", "cholecalciferol"]),
   ("vitamin c", ["vitamin c", "vit c", "ascorbic acid"]),
   ("insulin", ["insulin", "humalog", "novolog"]),
   ("levothyroxine", ["levothyroxine", "synthroid"]),
   ("clopidogrel", ["clopidogrel", "plavix"])]

/-- Word boundary \b between a preceding character (none at the start of
the string) and a following word character. -/
def boundaryBefore (prev : Option Char) : Bool :=
  match prev with
  | none => true
  | some c => !isWordCh c

/-- Word boundary \b between a word character and the following character
(or the end of the string). -/
def boundaryAfter (l : List Char) : Bool :=
  match l with
  | [] => true
  | c :: _ => !isWordCh c

/-- Length of the separator of re.split(r'\band\b|\balso\b|,\s*(?=\w)', ...)
matching at the current position, given the previous character; the
lookahead (?=\w) is checked but not counted.  Alternatives are tried in
the regex's order. -/
def sepLenAt (prev : Option Char) (l : List Char) : Option ℕ :=
  if startsWithL "and".data l && boundaryBefore prev && boundaryAfter (l.drop 3) then some 3
  else if startsWithL "also".data l && boundaryBefore prev && boundaryAfter (l.drop 4) then some 4
  else
    match l with
    | ',' :: t =>
      match t.dropWhile isSpaceCh with
      | c :: _ => if isWordCh c then some (1 + (t.takeWhile isSpaceCh).length) else none
      | [] => none
    | _ => none

/-- Scanner for re.split: walks the message one character at a time; when a
separator matches, the accumulated segment is emitted and the next `n - 1`
characters are skipped. -/
def splitGo (prev : Option Char) (skip : ℕ) (acc : List Char) : List Char → List (List Char)
  | [] => [acc.reverse]
  | c :: cs =>
    match skip with
    | k + 1 => splitGo (some c) k acc cs
    | 0 =>
      match sepLenAt prev (c :: cs) with
      | some n => acc.reverse :: splitGo (some c) (n - 1) [] cs
      | none => splitGo (some c) 0 (c :: acc) cs

/-- re.split(r'\band\b|\balso\b|,\s*(?=\w)', message). -/
def re_split_message (message : List Char) : List (List Char) := splitGo none 0 [] message

/-- str.strip(). -/
def pyStrip (l : List Char) : List Char :=
  ((l.dropWhile isSpaceCh).reverse.dropWhile isSpaceCh).reverse

/-- str.split() with no argument: split on whitespace runs, no empty words. -/
def pySplitAux : List Char → List Char → List (List Char)
  | [], acc => if acc.isEmpty then [] else [acc.reverse]
  | c :: cs, acc =>
    if isSpaceCh c then
      (if acc.isEmpty then pySplitAux cs [] else acc.reverse :: pySplitAux cs [])
    else pySplitAux cs (c :: acc)

/-- str.split() with no argument. -/
def pySplit (l : List Char) : List (List Char) := pySplitAux l []

/-- word[0].isupper() (words produced by str.split() are never empty; the
empty case is unreachable and yields False here; the Except variant below
records it as the IndexError it would raise). -/
def headUpper : List Char → Bool
  | [] => false
  | c :: _ => c.isUpper

/-- str.title() for ASCII: uppercase every cased character that follows an
uncased one, lowercase the rest. -/
def pyTitleGo : Bool → List Char → List Char
  | _, [] => []
  | prevCased, c :: cs =>
    if c.isAlpha then (if prevCased then c.toLower else c.toUpper) :: pyTitleGo true cs
    else c :: pyTitleGo false cs

/-- str.title() for ASCII. -/
def pyTitle (l : List Char) : List Char := pyTitleGo false l

/-- int() on a nonempty decimal digit string. -/
def digitsToNat (l : List Char) : ℕ := l.foldl (fun a c => 10 * a + (c.toNat - 48)) 0

namespace MedicineParser

/-- The units condition of the capitalized-word fallback: any of "mg", "g",
"ml" occurring as a substring of the lowercased next word. -/
def nextWordHasUnit : List (List Char) → Bool
  | nx :: _ => ["mg", "g", "ml"].any (fun u => containsSub u.data (lowerStr nx))
  | [] => false

/-- The fallback loop of _extract_medicine_name over the whitespace-split
words: take the first word that is capitalized or precedes a unit-bearing
word, strip non-word characters, and accept it lowercased if longer than
2 characters; otherwise keep scanning. -/
def heurName : List (List Char) → Option (List Char)
  | [] => none
  | w :: rest =>
    if headUpper w || nextWordHasUnit rest then
      let clean_word := w.filter (fun c => isWordCh c || isSpaceCh c)
      if 2 < clean_word.length then some (lowerStr clean_word) else heurName rest
    else heurName rest

/-- MedicineParser._extract_medicine_name: first alias-table entry with a
variant contained in the lowercased text wins; otherwise the capitalized /
pre-dosage word fallback. -/
def extract_medicine_name (text : List Char) : Option (List Char) :=
  let text_lower := lowerStr text
  match COMMON_MEDICINES.find? (fun e => e.2.any (fun v => containsSub v.data text_lower)) with
  | some e => some e.1.data
  | none => heurName (pySplit text)

/-- The unit alternation mg|g|ml|mcg|iu|units? of the dosage regex, tried
in order at the current (lowercased) position; returns the lowercased
matched unit. -/
def unitMatchAt (l : List Char) : Option (List Char) :=
  let low := lowerStr l
  match ["mg", "g", "ml", "mcg", "iu"].find? (fun u => startsWithL u.data low) with
  | some u => some u.data
  | none =>
    if startsWithL "units".data low then some "units".data
    else if startsWithL "unit".data low then some "unit".data
    else none

/-- One attempt of the dosage regex (\d+(?:\.\d+)?)\s*(mg|g|ml|mcg|iu|units?)
at the current position (the regex engine's backtracking cannot produce any
other decomposition here, so greedy maximal runs are exact). -/
def dosageAt (l : List Char) : Option (List Char) :=
  let ds := l.takeWhile Char.isDigit
  if ds.isEmpty then none
  else
    let r1 := l.drop ds.length
    let npr : List Char × List Char :=
      match r1 with
      | '.' :: r =>
        let fs := r.takeWhile Char.isDigit
        if fs.isEmpty then (ds, r1) else (ds ++ '.' :: fs, r.drop fs.length)
      | _ => (ds, r1)
    match unitMatchAt (npr.2.dropWhile isSpaceCh) with
    | some u => some (npr.1 ++ u)
    | none => none

/-- re.search: leftmost position at which the dosage pattern matches. -/
def scanDosage : List Char → Option (List Char)
  | [] => none
  | c :: cs =>
    match dosageAt (c :: cs) with
    | some r => some r
    | none => scanDosage cs

/-- MedicineParser._extract_dosage: f"{amount}{unit.lower()}" or None. -/
def extract_dosage (text : List Char) : Option (List Char) := scanDosage text

/-- The unit alternation of quantity_pattern; only whether some alternative
matches at the position is relevant (group 1 holds the digits). -/
def qtyUnitMatch (l : List Char) : Bool :=
  let low := lowerStr l
  (["tablet", "capsule", "pill", "strip", "bottle", "pack", "box", "count"].any
    (fun u => startsWithL u.data low)) ||
  startsWithL "piece".data low || startsWithL "tab".data low || startsWithL "cap".data low

/-- One attempt of quantity_pattern (\d+)\s*(tablet|...) at the position. -/
def qty1At (l : List Char) : Option ℕ :=
  let ds := l.takeWhile Char.isDigit
  if ds.isEmpty then none
  else if qtyUnitMatch ((l.drop ds.length).dropWhile isSpaceCh) then some (digitsToNat ds)
  else none

/-- re.search for quantity_pattern. -/
def scanQty1 : List Char → Option ℕ
  | [] => none
  | c :: cs =>
    match qty1At (c :: cs) with
    | some n => some n
    | none => scanQty1 cs

/-- The lookahead (?=tablet|capsule|pill|tab|cap) of simple_quantity. -/
def lookaheadOk (l : List Char) : Bool :=
  let low := lowerStr l
  ["tablet", "capsule", "pill", "tab", "cap"].any (fun u => startsWithL u.data low)

/-- The mojibake alternative of simple_quantity's (?:of|x|Ã—)? group: the
two characters U+00C3 U+2014 present in the source file. -/
def mojibake : List Char := [Char.ofNat 0xC3, Char.ofNat 0x2014]

/-- One attempt of simple_quantity \b(\d+)\s*(?:of|x|Ã—)?\s*(?=tablet|...)
at the position.  If the optional group matches but the lookahead then
fails, the engine retries without the group at the same position. -/
def qty2At (prev : Option Char) (l : List Char) : Option ℕ :=
  if !boundaryBefore prev then none
  else
    let ds := l.takeWhile Char.isDigit
    if ds.isEmpty then none
    else
      let r1 := (l.drop ds.length).dropWhile isSpaceCh
      let low1 := lowerStr r1
      let withGroup : Option (List Char) :=
        if startsWithL "of".data low1 then some (r1.drop 2)
        else if startsWithL "x".data low1 then some (r1.drop 1)
        else if startsWithL mojibake r1 then some (r1.drop 2)
        else none
      match withGroup with
      | some r2 =>
        if lookaheadOk (r2.dropWhile isSpaceCh) then some (digitsToNat ds)
        else if lookaheadOk r1 then some (digitsToNat ds)
        else none
      | none => if lookaheadOk r1 then some (digitsToNat ds) else none

/-- re.search for simple_quantity. -/
def scanQty2 (prev : Option Char) : List Char → Option ℕ
  | [] => none
  | c :: cs =>
    match qty2At prev (c :: cs) with
    | some n => some n
    | none => scanQty2 (some c) cs

/-- re.findall(r'\b(\d+)\b', text): every maximal digit run flanked by word
boundaries.  Interior digit positions never carry a leading boundary, so a
run rejected for its trailing neighbour contributes nothing. -/
def standaloneNums (prev : Option Char) : List Char → List ℕ
  | [] => []
  | c :: cs =>
    let run := (c :: cs).takeWhile Char.isDigit
    let contrib :=
      if c.isDigit && boundaryBefore prev && boundaryAfter ((c :: cs).dropWhile Char.isDigit)
      then [digitsToNat run] else []
    contrib ++ standaloneNums (some c) cs

/-- sorted(numbers, key=int, reverse=True): stable descending sort (equal
values are indistinguishable, so plain insertion sort is exact). -/
def sortDescNums (l : List ℕ) : List ℕ := List.insertionSort (fun a b => b ≤ a) l

/-- MedicineParser._extract_quantity: quantity_pattern, then
simple_quantity, then the largest standalone number in [1, 1000], then the
default pack size 30. -/
def extract_quantity (text : List Char) : ℕ :=
  match scanQty1 text with
  | some n => n
  | none =>
    match scanQty2 none text with
    | some n => n
    | none =>
      match (sortDescNums (standaloneNums none text)).find? (fun n => 1 ≤ n && n ≤ 1000) with
      | some n => n
      | none => 30

/-- The form keyword table of _extract_form, in source order. -/
def formTable : List (String × List String) :=
  [("tablet", ["tablet", "tab", "pill"]),
   ("capsule", ["capsule", "cap"]),
   ("syrup", ["syrup", "liquid", "solution"]),
   ("injection", ["injection", "inject", "vial"]),
   ("cream", ["cream", "ointment", "gel"]),
   ("drops", ["drops", "eye drops", "ear drops"]),
   ("inhaler", ["inhaler", "puff"]),
   ("patch", ["patch", "transdermal"])]

/-- MedicineParser._extract_form. -/
def extract_form (text : List Char) : String :=
  let text_lower := lowerStr text
  match formTable.find? (fun e => e.2.any (fun k => containsSub k.data text_lower)) with
  | some e => e.1
  | none => "tablet"

/-- MedicineParser._calculate_confidence.  The quantity bonus tests
`quantity and quantity != 30`, so an extracted 0 earns no bonus. -/
def calculate_confidence (medicine_name : Option (List Char)) (dosage : Option (List Char))
    (quantity : ℕ) : ℚ :=
  let nameScore : ℚ :=
    match medicine_name with
    | some nm => 2 / 5 + (if COMMON_MEDICINES.any (fun e => e.1.data = nm) then 1 / 5 else 0)
    | none => 0
  let dosageScore : ℚ := if dosage.isSome then 1 / 5 else 0
  let qtyScore : ℚ := if quantity ≠ 0 ∧ quantity ≠ 30 then 1 / 5 else 0
  min (nameScore + dosageScore + qtyScore) 1

end MedicineParser

/-- One parsed medicine request. -/
structure MedicineRequest where
  name : String
  dosage : Option String
  quantity : ℕ
  form : String
  confidence : ℚ
deriving DecidableEq, Repr

/-- The result dict of MedicineParser.parse_message. -/
structure ParseResult where
  medicines : List MedicineRequest
  requires_clarification : Bool
  next_action : String
  confidence : ℚ
  response : String
deriving DecidableEq, Repr

/-- An ASCII apostrophe, kept out of string literals. -/
def apos : String := String.mk [Char.ofNat 39]

namespace MedicineParser

/-- The canned greeting response of parse_message. -/
def greetResponse : String :=
  "Hello! I" ++ apos ++ "m here to help you order medicines. You can tell me what medicine you need, like " ++
    apos ++ "I need Paracetamol 500mg, 30 tablets" ++ apos ++ " or " ++ apos ++ "I want Aspirin" ++ apos ++ "."

/-- The clarification response of _generate_response. -/
def clarifyResponse : String :=
  "I" ++ apos ++ "d be happy to help you order medicines. Could you please tell me which medicine you need? For example, " ++
    apos ++ "I need Paracetamol 500mg, 30 tablets" ++ apos ++ "."

/-- The per-medicine fragment of the single-medicine response. -/
def singleParts (med : MedicineRequest) : List String :=
  ["I" ++ apos ++ "ll add " ++ med.name] ++
    (match med.dosage with | some d => [d] | none => []) ++
    [toString med.quantity ++ " " ++ med.form ++ "s"]

/-- One numbered line of the multi-medicine response. -/
def multiLine (i : ℕ) (med : MedicineRequest) : String :=
  String.intercalate " "
    ([toString (i + 1) ++ ". " ++ med.name] ++
      (match med.dosage with | some d => [d] | none => []) ++
      ["- " ++ toString med.quantity ++ " " ++ med.form ++ "s"]) ++ "\n"

/-- MedicineParser._generate_response. -/
def generate_response (medicines : List MedicineRequest) (requires_clarification : Bool) : String :=
  if requires_clarification then clarifyResponse
  else
    match medicines with
    | [med] =>
      String.intercalate " " (singleParts med) ++ " to your cart. " ++
        (if med.confidence < 7 / 10 then "Is this correct, or would you like to modify it?"
         else "Would you like to add anything else or proceed to checkout?")
    | _ =>
      "I" ++ apos ++ "ll add these medicines to your cart:\n" ++
        String.join (medicines.enum.map (fun p => multiLine p.1 p.2)) ++
        "\nWould you like to add anything else or proceed to checkout?"

/-- The body of parse_message's per-segment loop. -/
def parse_segment (seg : List Char) : Option MedicineRequest :=
  let segment := pyStrip seg
  if segment.length < 3 then none
  else
    match extract_medicine_name segment with
    | none => none
    | some medicine_name =>
      let dosage := extract_dosage segment
      let quantity := extract_quantity segment
      some
        { name := String.mk (pyTitle medicine_name)
          dosage := dosage.map String.mk
          quantity := quantity
          form := extract_form segment
          confidence := calculate_confidence (some medicine_name) dosage quantity }

/-- The greeting short-circuit of parse_message: a greeting token occurs in
the lowercased message (as a substring, so e.g. "hi" inside "something"
counts) and no alias-table variant occurs anywhere in it. -/
def greetingFires (message : String) : Bool :=
  let message_lower := lowerStr message.data
  (greetings.any (fun g => containsSub g.data message_lower)) &&
    !(COMMON_MEDICINES.any (fun e => e.2.any (fun med => containsSub med.data message_lower)))

/-- The greeting result of parse_message. -/
def greetResult : ParseResult :=
  { medicines := []
    requires_clarification := false
    next_action := "greet"
    confidence := 1
    response := greetResponse }

/-- MedicineParser.parse_message. -/
def parse_message (message : String) : ParseResult :=
  if greetingFires message then greetResult
  else
    let medicines := (re_split_message message.data).filterMap parse_segment
    { medicines := medicines
      requires_clarification := medicines.isEmpty
      next_action := if medicines.isEmpty then "ask_details" else "confirm"
      confidence :=
        if medicines.isEmpty then 0
        else (medicines.map (·.confidence)).sum / (medicines.length : ℚ)
      response := generate_response medicines medicines.isEmpty }

end MedicineParser

namespace MedicineParser

/-- word[0].isupper() with the IndexError made explicit (used to show the
parser body cannot actually raise: str.split() never yields empty words). -/
def headUpperE : List Char → Except String Bool
  | [] => .error "IndexError: string index out of range"
  | c :: _ => .ok c.isUpper

/-- heurName with the word indexing's potential IndexError threaded. -/
def heurNameE : List (List Char) → Except String (Option (List Char))
  | [] => .ok none
  | w :: rest =>
    match headUpperE w with
    | .error e => .error e
    | .ok hu =>
      if hu || nextWordHasUnit rest then
        let clean_word := w.filter (fun c => isWordCh c || isSpaceCh c)
        if 2 < clean_word.length then .ok (some (lowerStr clean_word)) else heurNameE rest
      else heurNameE rest

/-- extract_medicine_name with errors threaded. -/
def extract_medicine_nameE (text : List Char) : Except String (Option (List Char)) :=
  let text_lower := lowerStr text
  match COMMON_MEDICINES.find? (fun e => e.2.any (fun v => containsSub v.data text_lower)) with
  | some e => .ok (some e.1.data)
  | none => heurNameE (pySplit text)

/-- parse_segment with errors threaded. -/
def parse_segmentE (seg : List Char) : Except String (Option MedicineRequest) :=
  let segment := pyStrip seg
  if segment.length < 3 then .ok none
  else
    match extract_medicine_nameE segment with
    | .error e => .error e
    | .ok none => .ok none
    | .ok (some medicine_name) =>
      let dosage := extract_dosage segment
      let quantity := extract_quantity segment
      .ok (some
        { name := String.mk (pyTitle medicine_name)
          dosage := dosage.map String.mk
          quantity := quantity
          form := extract_form segment
          confidence := calculate_confidence (some medicine_name) dosage quantity })

/-- The parse loop over segments with errors threaded. -/
def parse_segmentsE : List (List Char) → Except String (List MedicineRequest)
  | [] => .ok []
  | s :: ss =>
    match parse_segmentE s with
    | .error e => .error e
    | .ok none => parse_segmentsE ss
    | .ok (some m) =>
      match parse_segmentsE ss with
      | .error e => .error e
      | .ok r => .ok (m :: r)

/-- parse_message with every potentially raising operation of its body made
explicit; parse_message has no try/except, so showing this never returns an
error is exactly showing the source never propagates an exception. -/
def parse_messageE (message : String) : Except String ParseResult :=
  if greetingFires message then .ok greetResult
  else
    match parse_segmentsE (re_split_message message.data) with
    | .error e => .error e
    | .ok medicines =>
      .ok
        { medicines := medicines
          requires_clarification := medicines.isEmpty
          next_action := if medicines.isEmpty then "ask_details" else "confirm"
          confidence :=
            if medicines.isEmpty then 0
            else (medicines.map (·.confidence)).sum / (medicines.length : ℚ)
          response := generate_response medicines medicines.isEmpty }

end MedicineParser

/-- All fields of a DepletionPrediction except historical_data (which echoes
the caller's list verbatim, ordering included). -/
structure PredictionCore where
  user_id : String
  medicine_id : String
  medicine_name : String
  average_consumption_rate : PFloat
  last_order_date : ℤ
  last_order_quantity : ℤ
  predicted_depletion_date : ℤ
  suggested_reorder_date : ℤ
  suggested_quantity : ℤ
  confidence : PredictionConfidence
  confidence_score : ℚ
deriving DecidableEq, Repr

/-- Forget the historical_data field. -/
def toCore (p : DepletionPrediction) : PredictionCore :=
  { user_id := p.user_id
    medicine_id := p.medicine_id
    medicine_name := p.medicine_name
    average_consumption_rate := p.average_consumption_rate
    last_order_date := p.last_order_date
    last_order_quantity := p.last_order_quantity
    predicted_depletion_date := p.predicted_depletion_date
    suggested_reorder_date := p.suggested_reorder_date
    suggested_quantity := p.suggested_quantity
    confidence := p.confidence
    confidence_score := p.confidence_score }

namespace ForecastAgent

/-- predict_depletion seen as a function of the caller list's length and of
the sorted frame only, producing the history-free core of the prediction;
predict_core_spec below proves it agrees with predict_depletion. -/
def predictCoreAux (today : ℤ) (user_id medicine_id : String) (n : ℕ)
    (df : List OrderEntry) : Option PredictionCore :=
  if n < PREDICTION_MIN_ORDERS then none
  else
    let consumption_rate := calculate_consumption_rate df
    if consumption_rate.le0 then none
    else
      match df.getLast? with
      | none => none
      | some last_order =>
        match pfloorDays (PFloat.div (.val (last_order.quantity : ℚ)) consumption_rate) with
        | none => none
        | some d =>
          let predicted_depletion_date := last_order.order_date + d
          let confidence_score := calculate_confidence df
          let recent_orders := (lastN 3 df).map (·.quantity)
          some
            { user_id := user_id
              medicine_id := medicine_id
              medicine_name := last_order.medicine_name.getD ""
              average_consumption_rate := pround2 consumption_rate
              last_order_date := last_order.order_date
              last_order_quantity := last_order.quantity
              predicted_depletion_date := predicted_depletion_date
              suggested_reorder_date := max (predicted_depletion_date - 7) today
              suggested_quantity :=
                truncQ (((recent_orders.sum : ℤ) : ℚ) / (recent_orders.length : ℚ))
              confidence := get_confidence_level confidence_score
              confidence_score := roundQ2 confidence_score }

end ForecastAgent

/-- Modelled from the spec: the claim's description of the consumption rate
(C3) as the arithmetic mean, over consecutive pairs of the date-sorted
history, of quantity[i-1] / (date[i] - date[i-1]), with non-positive or
undefined rates discarded (in exact rational arithmetic a zero gap yields 0,
which the positivity filter discards, exactly as the claim's words demand).
Used only to compare the claimed semantics with the code's. -/
def specValidRates (df : List OrderEntry) : List ℚ :=
  ((consecPairs df).map fun p =>
      ((p.1.quantity : ℤ) : ℚ) / (((p.2.order_date - p.1.order_date : ℤ)) : ℚ)).filter
    (fun r => decide (0 < r))

/-- Four orders of 60 units spaced exactly 30 days apart (spec test vector). -/
def hist4x60 : List OrderEntry :=
  [⟨0, 60, none⟩, ⟨30, 60, none⟩, ⟨60, 60, none⟩, ⟨90, 60, none⟩]

/-- A history with a same-day duplicate order (dates 0, 0, 30). -/
def histDup : List OrderEntry := [⟨0, 60, none⟩, ⟨0, 60, none⟩, ⟨30, 60, none⟩]

/-- A stale history: three monthly orders of 30 units ending on day 60. -/
def histStale : List OrderEntry := [⟨0, 30, none⟩, ⟨30, 30, none⟩, ⟨60, 30, none⟩]

/-- History whose last quantity (13) over rate 5/day gives fractional
days-to-deplete 2.6. -/
def histFrac : List OrderEntry := [⟨0, 50, none⟩, ⟨10, 50, none⟩, ⟨20, 13, none⟩]

/-- History whose last three quantities average 32/3 (truncation vs
rounding distinguishes 10 from 11). -/
def histThird : List OrderEntry := [⟨0, 10, none⟩, ⟨30, 11, none⟩, ⟨60, 11, none⟩]

/-- Three orders with distinct dates, increasing quantities. -/
def histPerm : List OrderEntry := [⟨0, 10, none⟩, ⟨30, 20, none⟩, ⟨60, 30, none⟩]

/-- The same three orders supplied in the reverse order. -/
def histPermRev : List OrderEntry := [⟨60, 30, none⟩, ⟨30, 20, none⟩, ⟨0, 10, none⟩]

/-- The prediction produced on hist4x60 with today = 95. -/
def pred4x60 : DepletionPrediction :=
  { user_id := "u", medicine_id := "m", medicine_name := ""
    average_consumption_rate := .val 2
    last_order_date := 90, last_order_quantity := 60
    predicted_depletion_date := 120, suggested_reorder_date := 113
    suggested_quantity := 60, confidence := .high, confidence_score := 1
    historical_data := hist4x60 }

/-- The prediction produced on histFrac with today = 0. -/
def predFrac : DepletionPrediction :=
  { user_id := "u", medicine_id := "m", medicine_name := ""
    average_consumption_rate := .val 5
    last_order_date := 20, last_order_quantity := 13
    predicted_depletion_date := 22, suggested_reorder_date := 15
    suggested_quantity := 37, confidence := .high, confidence_score := 1
    historical_data := histFrac }

/-- The prediction produced on histThird with today = 0. -/
def predThird : DepletionPrediction :=
  { user_id := "u", medicine_id := "m", medicine_name := ""
    average_consumption_rate := .val (7 / 20)
    last_order_date := 60, last_order_quantity := 11
    predicted_depletion_date := 91, suggested_reorder_date := 84
    suggested_quantity := 10, confidence := .high, confidence_score := 1
    historical_data := histThird }

/-- The medicine request parsed from "I need Paracetamol 500mg, 30 tablets". -/
def paracetamolMed : MedicineRequest :=
  { name := "Paracetamol", dosage := some "500mg", quantity := 30, form := "tablet",
    confidence := 4 / 5 }

/-- Strict date order on entries (used to state uniqueness of the sorted
frame when all dates are distinct). -/
def dateLT (a b : OrderEntry) : Prop := a.order_date < b.order_date

instance : DecidableRel dateLT := fun a b => Int.decLt a.order_date b.order_date

instance : IsAntisymm OrderEntry dateLT :=
  ⟨fun _ _ h1 h2 => absurd (lt_trans h1 h2) (lt_irrefl _)⟩

/-- Three orders of quantity 0: every per-interval rate is 0, so no valid
rate survives the positivity filter. -/
def histZeroQty : List OrderEntry := [⟨0, 0, none⟩, ⟨30, 0, none⟩, ⟨60, 0, none⟩]

namespace MedicineParser

theorem pySplitAux_mem_ne_nil : ∀ (l : List Char) (acc : List Char), ∀ w ∈ pySplitAux l acc, w ≠ [] := by
  intro l
  induction l with
  | nil =>
    intro acc w hw
    simp only [pySplitAux] at hw
    split at hw
    · simp at hw
    · next hne =>
      simp only [List.mem_singleton] at hw
      subst hw
      simp only [ne_eq, List.reverse_eq_nil_iff]
      intro hnil
      rw [hnil] at hne
      simp at hne
  | cons c cs ih =>
    intro acc w hw
    simp only [pySplitAux] at hw
    split at hw
    · split at hw
      · exact ih [] w hw
      · next hne =>
        rcases List.mem_cons.mp hw with h | h
        · subst h
          simp only [ne_eq, List.reverse_eq_nil_iff]
          intro hnil
          rw [hnil] at hne
          simp at hne
        · exact ih [] w h
    · exact ih (c :: acc) w hw

theorem headUpperE_ok (w : List Char) (hw : w ≠ []) : headUpperE w = .ok (headUpper w) := by
  cases w with
  | nil => exact absurd rfl hw
  | cons c cs => rfl

theorem heurNameE_ok : ∀ ws : List (List Char), (∀ w ∈ ws, w ≠ []) →
    heurNameE ws = .ok (heurName ws) := by
  intro ws
  induction ws with
  | nil => intro _; rfl
  | cons w rest ih =>
    intro h
    have hw : w ≠ [] := h w (by simp)
    have hrest : ∀ v ∈ rest, v ≠ [] := fun v hv => h v (by simp [hv])
    simp only [heurNameE, heurName, headUpperE_ok w hw]
    split
    · split
      · rfl
      · exact ih hrest
    · exact ih hrest

theorem extract_medicine_nameE_ok (text : List Char) :
    extract_medicine_nameE text = .ok (extract_medicine_name text) := by
  simp only [extract_medicine_nameE, extract_medicine_name]
  split
  · rfl
  · exact heurNameE_ok _ (pySplitAux_mem_ne_nil text [])

theorem parse_segmentE_ok (seg : List Char) : parse_segmentE seg = .ok (parse_segment seg) := by
  simp only [parse_segmentE, parse_segment, extract_medicine_nameE_ok]
  split
  · rfl
  · cases hx : extract_medicine_name (pyStrip seg) <;> rfl

theorem parse_segmentsE_ok : ∀ ss : List (List Char),
    parse_segmentsE ss = .ok (ss.filterMap parse_segment) := by
  intro ss
  induction ss with
  | nil => rfl
  | cons s rest ih =>
    cases hopt : parse_segment s <;>
      simp only [parse_segmentsE, parse_segmentE_ok, hopt, List.filterMap_cons, ih]

theorem parse_segment_conf (seg : List Char) (m : MedicineRequest)
    (h : parse_segment seg = some m) :
    ∃ nm dos q, m.confidence = calculate_confidence (some nm) dos q := by
  simp only [parse_segment] at h
  split at h
  · cases h
  · split at h
    · cases h
    · next nm _ =>
      cases h
      exact ⟨nm, _, _, rfl⟩

theorem calculate_confidence_bounds (nm : Option (List Char)) (dos : Option (List Char))
    (q : ℕ) : 0 ≤ calculate_confidence nm dos q ∧ calculate_confidence nm dos q ≤ 1 := by
  have hb : ∀ (c : Prop) (inst : Decidable c), (0 : ℚ) ≤ @ite _ c inst (1 / 5) 0 := by
    intro c inst
    split <;> norm_num
  simp only [calculate_confidence]
  refine ⟨le_min ?_ (by norm_num), min_le_right _ _⟩
  refine add_nonneg (add_nonneg ?_ (hb _ _)) (hb _ _)
  rcases nm with _ | nm
  · norm_num
  · exact add_nonneg (by norm_num) (hb _ _)

end MedicineParser

open MedicineParser ForecastAgent

/-- C1 (amended): requires_clarification is true iff the medicines list is
empty WHENEVER the greeting short-circuit does not fire; when it fires the
parser instead returns requires_clarification = false with an empty list.
The claim's own example "I need something for headache" takes the greeting
path, because "hi" occurs as a substring of "something". -/
theorem spec_c1 (msg : String) :
    (greetingFires msg = false →
      ((parse_message msg).requires_clarification = true ↔ (parse_message msg).medicines = [])) ∧
    (greetingFires msg = true →
      (parse_message msg).requires_clarification = false ∧ (parse_message msg).medicines = []) ∧
    greetingFires "I need something for headache" = true := by
  refine ⟨?_, ?_, by with_unfolding_all decide⟩
  · intro h
    simp [parse_message, h, List.isEmpty_iff]
  · intro h
    simp [parse_message, h, greetResult]

/-- C1 witness: the amended statement applied to the concrete greeting
input "hello". -/
theorem spec_c1_witness :
    (parse_message "hello").requires_clarification = false ∧
    (parse_message "hello").medicines = [] :=
  (spec_c1 "hello").2.1 (by with_unfolding_all decide)

/-- C1 counterexample: on "I need something for headache" the parser
returns requires_clarification = false with an empty medicines list, so
the claimed iff (and the claimed value true for this very input) fails. -/
theorem spec_c1_cex :
    (parse_message "I need something for headache").requires_clarification ≠ true ∧
    (parse_message "I need something for headache").medicines = [] := by
  with_unfolding_all decide

/-- C2 (amended): parsing "I need Paracetamol 500mg, 30 tablets" yields
exactly one request with name "Paracetamol" (the canonical name passed
through str.title()), dosage "500mg", quantity 30, form "tablet", and
confidence 0.8 ≥ 0.8. -/
theorem spec_c2 :
    (parse_message "I need Paracetamol 500mg, 30 tablets").medicines = [paracetamolMed] ∧
    (parse_message "I need Paracetamol 500mg, 30 tablets").medicines.all
      (fun m => decide ((8 : ℚ) / 10 ≤ m.confidence)) = true := by
  with_unfolding_all decide

/-- C2 counterexample: the single parsed request is named "Paracetamol",
not the claimed lowercase "paracetamol". -/
theorem spec_c2_cex :
    (parse_message "I need Paracetamol 500mg, 30 tablets").medicines.map
      (fun m => m.name) = ["Paracetamol"] ∧
    ("Paracetamol" : String) ≠ "paracetamol" := by
  with_unfolding_all decide

/-- C5: neither component propagates an exception.  The parser body with
all its fallible operations made explicit always returns ok of the total
parse_message result; the forecaster's try/except wrappers map every
internal error of their bodies to None / False respectively, and a
prediction dict lacking its depletion date (a KeyError inside the body)
yields False. -/
theorem spec_c5 :
    (∀ message : String, parse_messageE message = .ok (parse_message message)) ∧
    (∀ (today : ℤ) (uid mid : String) (h : List OrderEntry),
      predict_depletion today uid mid h =
        match predict_depletionE today uid mid h with
        | .ok r => r
        | .error _ => none) ∧
    (∀ (today : ℤ) (pred : NotifyInput),
      should_notify_user today pred =
        match should_notify_userE today pred with
        | .ok b => b
        | .error _ => false) ∧
    (∀ (today : ℤ) (conf : Option PredictionConfidence),
      should_notify_user today ⟨none, conf⟩ = false) := by
  refine ⟨?_, fun _ _ _ _ => rfl, fun _ _ => rfl, fun _ _ => rfl⟩
  intro message
  simp only [parse_messageE, parse_message, parse_segmentsE_ok]
  split <;> rfl

/-- C6 (amended): every parsed request has a confidence in [0, 1] and a
nonnegative integer quantity (an explicit "0 tablets" is accepted as is,
so quantity 0 is reachable and positivity fails; see the
counterexample). -/
theorem spec_c6 (msg : String) (m : MedicineRequest)
    (hm : m ∈ (parse_message msg).medicines) :
    (0 ≤ m.confidence ∧ m.confidence ≤ 1) ∧ (0 : ℤ) ≤ (m.quantity : ℤ) := by
  refine ⟨?_, by positivity⟩
  have hseg : ∃ nm dos q, m.confidence = calculate_confidence (some nm) dos q := by
    simp only [parse_message] at hm
    split at hm
    · simp [greetResult] at hm
    · simp only [List.mem_filterMap] at hm
      obtain ⟨seg, _, hseg⟩ := hm
      exact parse_segment_conf seg m hseg
  obtain ⟨nm, dos, q, hq⟩ := hseg
  rw [hq]
  exact calculate_confidence_bounds _ _ _

/-- C6 witness: the bounds at the request parsed from the Paracetamol
example. -/
theorem spec_c6_witness :
    (0 ≤ paracetamolMed.confidence ∧ paracetamolMed.confidence ≤ 1) ∧
    (0 : ℤ) ≤ (paracetamolMed.quantity : ℤ) :=
  spec_c6 "I need Paracetamol 500mg, 30 tablets" paracetamolMed (by with_unfolding_all decide)

/-- C6 counterexample: "Paracetamol 0 tablets" parses to a request with
quantity 0, refuting the claimed lower bound of 1. -/
theorem spec_c6_cex :
    ¬ (∀ m ∈ (parse_message "Paracetamol 0 tablets").medicines, 1 ≤ m.quantity) := by
  with_unfolding_all decide

/-- C10: the message "Please send my usual order" contains no greeting
token (as fired), no alias-table variant, and no dosage unit, yet the
ordinary capitalized word "Please" is returned as a medicine, with
requires_clarification = false and next_action = "confirm". -/
theorem spec_c10 :
    greetingFires "Please send my usual order" = false ∧
    (COMMON_MEDICINES.any (fun e => e.2.any
      (fun v => containsSub v.data (lowerStr "Please send my usual order".data)))) = false ∧
    extract_dosage "Please send my usual order".data = none ∧
    (parse_message "Please send my usual order").medicines.map (fun m => m.name) = ["Please"] ∧
    (parse_message "Please send my usual order").requires_clarification = false ∧
    (parse_message "Please send my usual order").next_action = "confirm" := by
  with_unfolding_all decide

theorem chain'_consecPairs {df : List OrderEntry}
    (h : List.Chain' (fun a b => a.order_date < b.order_date) df) :
    ∀ p ∈ consecPairs df, p.1.order_date < p.2.order_date := by
  induction df with
  | nil => intro p hp; simp [consecPairs] at hp
  | cons a t ih =>
    cases t with
    | nil => intro p hp; simp [consecPairs] at hp
    | cons b t2 =>
      intro p hp
      rw [List.chain'_cons] at h
      simp only [consecPairs, List.tail_cons, List.zip_cons_cons] at hp
      rcases List.mem_cons.mp hp with rfl | hp
      · exact h.1
      · exact ih h.2 p hp

theorem psum_map_val (l : List ℚ) : psum (l.map PFloat.val) = .val l.sum := by
  induction l with
  | nil => rfl
  | cons a t ih =>
    simp only [List.map_cons, psum, List.foldr_cons, List.sum_cons] at ih ⊢
    rw [ih]
    rfl

theorem pmean_map_val (l : List ℚ) (hl : l ≠ []) :
    pmean (l.map PFloat.val) = .val (l.sum / (l.length : ℚ)) := by
  have hlen : ((l.length : ℚ)) ≠ 0 := by
    have : l.length ≠ 0 := by simpa [List.length_eq_zero] using hl
    exact_mod_cast this
  simp only [pmean, psum_map_val, List.length_map, PFloat.div]
  rw [if_neg hlen]

theorem calcRate_spec (df : List OrderEntry)
    (hchain : List.Chain' (fun a b => a.order_date < b.order_date) df)
    (hlen : 2 ≤ df.length) :
    ForecastAgent.calculate_consumption_rate df =
      (if specValidRates df = [] then PFloat.val 0
       else PFloat.val ((specValidRates df).sum / ((specValidRates df).length : ℚ))) := by
  have hnot : ¬ df.length < 2 := by omega
  have hpos := chain'_consecPairs hchain
  have hmap : (consecPairs df).map (fun p => PFloat.div (.val (p.1.quantity : ℚ))
      (.val ((p.2.order_date - p.1.order_date : ℤ) : ℚ))) =
      ((consecPairs df).map fun p =>
        ((p.1.quantity : ℤ) : ℚ) / (((p.2.order_date - p.1.order_date : ℤ)) : ℚ)).map
        PFloat.val := by
    rw [List.map_map]
    refine List.map_congr_left fun p hp => ?_
    have hgap : (0 : ℤ) < p.2.order_date - p.1.order_date := by
      have := hpos p hp
      omega
    have hgapq : (((p.2.order_date - p.1.order_date : ℤ)) : ℚ) ≠ 0 := by
      exact_mod_cast hgap.ne'
    simp only [PFloat.div, Function.comp_apply]
    rw [if_neg hgapq]
  simp only [ForecastAgent.calculate_consumption_rate, if_neg hnot, hmap]
  have hfilter1 : ∀ L : List ℚ, ((L.map PFloat.val).filter (fun r => !r.isNan)) =
      L.map PFloat.val := by
    intro L
    refine List.filter_eq_self.mpr fun a ha => ?_
    obtain ⟨x, _, rfl⟩ := List.mem_map.mp ha
    rfl
  rw [hfilter1, List.filter_map]
  have hcomp : (PFloat.gt0 ∘ PFloat.val) = (fun r : ℚ => decide (0 < r)) := rfl
  rw [hcomp]
  have hspec : ((consecPairs df).map fun p =>
      ((p.1.quantity : ℤ) : ℚ) / (((p.2.order_date - p.1.order_date : ℤ)) : ℚ)).filter
      (fun r => decide (0 < r)) = specValidRates df := rfl
  rw [hspec, List.length_map]
  rcases hsv : specValidRates df with _ | ⟨a, L⟩
  · simp
  · rw [if_neg (by simp), if_neg (by simp [hsv])]
    exact pmean_map_val _ (by simp)

/-- C3 (amended): for date-sorted histories with strictly increasing dates
the code's consumption rate is exactly the claimed arithmetic mean of the
per-interval rates quantity[i-1]/gap with non-positive rates discarded
(0 when none survives); whenever the computed rate is <= 0 the prediction
is none; and the 4x60-every-30-days history yields rate 2.0 with HIGH
confidence.  (With a same-day duplicate the claimed discard does not
happen: the code produces an infinite rate - see the counterexample.) -/
theorem spec_c3 :
    (∀ df : List OrderEntry, List.Chain' (fun a b => a.order_date < b.order_date) df →
      2 ≤ df.length →
      ForecastAgent.calculate_consumption_rate df =
        (if specValidRates df = [] then PFloat.val 0
         else PFloat.val ((specValidRates df).sum / ((specValidRates df).length : ℚ)))) ∧
    (∀ (today : ℤ) (uid mid : String) (h : List OrderEntry),
      (ForecastAgent.calculate_consumption_rate (sortByDate h)).le0 = true →
      ForecastAgent.predict_depletion today uid mid h = none) ∧
    (ForecastAgent.predict_depletion 95 "u" "m" hist4x60).map
      (fun p => (p.average_consumption_rate, p.confidence)) = some (.val 2, .high) := by
  refine ⟨calcRate_spec, ?_, by with_unfolding_all decide⟩
  intro today uid mid h hle
  have hbody : ForecastAgent.predict_depletionE today uid mid h = .ok none := by
    simp only [ForecastAgent.predict_depletionE]
    split
    · rfl
    · rfl
  simp only [ForecastAgent.predict_depletion, hbody]

/-- C3 witness: the rate formula applied to the strictly increasing
4x60 history, and the none result applied to an all-zero-quantity
history whose computed rate is 0. -/
theorem spec_c3_witness :
    ForecastAgent.calculate_consumption_rate hist4x60 =
      PFloat.val ((specValidRates hist4x60).sum / ((specValidRates hist4x60).length : ℚ)) ∧
    ForecastAgent.predict_depletion 0 "u" "m" histZeroQty = none := by
  constructor
  · have h := spec_c3.1 hist4x60 (by simp [hist4x60, List.chain'_cons])
      (by with_unfolding_all decide)
    rw [h]
    with_unfolding_all decide
  · exact spec_c3.2.1 0 "u" "m" histZeroQty (by with_unfolding_all decide)

/-- C3 counterexample: on a history with a same-day duplicate order the
surviving-rate mean demanded by the claim is 2, but the code's rate is
+inf (60/0 passes the positivity filter and absorbs the mean), so the
claimed discarding of same-day intervals fails. -/
theorem spec_c3_cex :
    ForecastAgent.calculate_consumption_rate (sortByDate histDup) = PFloat.inf ∧
    specValidRates (sortByDate histDup) = [2] ∧
    PFloat.inf ≠ PFloat.val ((specValidRates (sortByDate histDup)).sum /
      ((specValidRates (sortByDate histDup)).length : ℚ)) := by
  with_unfolding_all decide

theorem gt0_le0_false {r : PFloat} (h : r.gt0 = true) : r.le0 = false := by
  cases r with
  | nan => rfl
  | inf => rfl
  | ninf => simp [PFloat.gt0] at h
  | val q =>
    simp only [PFloat.gt0, decide_eq_true_eq] at h
    simp only [PFloat.le0, decide_eq_false_iff_not, not_le]
    exact h

/-- C4 (amended): for histories with at least PREDICTION_MIN_ORDERS
entries and a strictly positive computed mean rate, predict returns a
prediction with suggested_reorder_date = max(predicted_depletion_date - 7,
today), hence suggested_reorder_date >= today always; the claimed
suggested_reorder_date <= predicted_depletion_date holds exactly when the
depletion date is not already in the past (today <= depletion date) - a
stale history violates it (see the counterexample). -/
theorem spec_c4 (today : ℤ) (uid mid : String) (h : List OrderEntry)
    (hlen : PREDICTION_MIN_ORDERS ≤ h.length)
    (hrate : (ForecastAgent.calculate_consumption_rate (sortByDate h)).gt0 = true) :
    ∃ p, ForecastAgent.predict_depletion today uid mid h = some p ∧
      p.suggested_reorder_date = max (p.predicted_depletion_date - 7) today ∧
      today ≤ p.suggested_reorder_date ∧
      (today ≤ p.predicted_depletion_date →
        p.suggested_reorder_date ≤ p.predicted_depletion_date) := by
  have hnot : ¬ h.length < PREDICTION_MIN_ORDERS := by omega
  have hle := gt0_le0_false hrate
  have hne : sortByDate h ≠ [] := by
    have hlen2 : (sortByDate h).length = h.length := (List.perm_insertionSort dateLE h).length_eq
    intro hnil
    rw [hnil] at hlen2
    simp only [List.length_nil] at hlen2
    simp only [PREDICTION_MIN_ORDERS] at hlen
    omega
  obtain ⟨last, hlast⟩ : ∃ l, (sortByDate h).getLast? = some l := by
    cases hgl : (sortByDate h).getLast? with
    | none => exact absurd (List.getLast?_eq_none_iff.mp hgl) hne
    | some l => exact ⟨l, rfl⟩
  obtain ⟨d, hd⟩ : ∃ d, pfloorDays (PFloat.div (.val (last.quantity : ℚ))
      (ForecastAgent.calculate_consumption_rate (sortByDate h))) = some d := by
    cases hr : ForecastAgent.calculate_consumption_rate (sortByDate h) with
    | nan => rw [hr] at hrate; cases hrate
    | ninf => rw [hr] at hrate; cases hrate
    | inf => exact ⟨⌊(0 : ℚ)⌋, rfl⟩
    | val r =>
      have hr0 : r ≠ 0 := by
        rw [hr] at hrate
        simp only [PFloat.gt0, decide_eq_true_eq] at hrate
        exact hrate.ne'
      refine ⟨⌊(last.quantity : ℚ) / r⌋, ?_⟩
      simp [PFloat.div, hr0, pfloorDays]
  simp only [ForecastAgent.predict_depletion, ForecastAgent.predict_depletionE, if_neg hnot,
    hle, Bool.false_eq_true, if_false, hlast, hd]
  refine ⟨_, rfl, rfl, le_max_right _ _, fun ht => max_le (sub_le_self _ (by norm_num)) ht⟩

/-- C4 witness: the amended statement at the 4x60 history with today = 95
(the prediction is pred4x60, whose reorder date 113 lies between today and
the depletion date 120). -/
theorem spec_c4_witness :
    ForecastAgent.predict_depletion 95 "u" "m" hist4x60 = some pred4x60 ∧
    pred4x60.suggested_reorder_date = max (pred4x60.predicted_depletion_date - 7) 95 ∧
    (95 : ℤ) ≤ pred4x60.suggested_reorder_date ∧
    pred4x60.suggested_reorder_date ≤ pred4x60.predicted_depletion_date := by
  obtain ⟨p, hp, h1, h2, h3⟩ := spec_c4 95 "u" "m" hist4x60 (by with_unfolding_all decide)
    (by with_unfolding_all decide)
  have he : ForecastAgent.predict_depletion 95 "u" "m" hist4x60 = some pred4x60 := by
    with_unfolding_all decide
  rw [he] at hp
  injection hp with hpe
  subst hpe
  exact ⟨he, h1, h2, h3 (by with_unfolding_all decide)⟩

/-- C4 counterexample: a stale history (orders on days 0, 30, 60, today =
1000) yields depletion date 90 but reorder date 1000, so the claimed
suggested_reorder_date <= predicted_depletion_date fails. -/
theorem spec_c4_cex :
    (ForecastAgent.predict_depletion 1000 "u" "m" histStale).map
      (fun p => (p.predicted_depletion_date, p.suggested_reorder_date)) = some (90, 1000) ∧
    ¬ ((1000 : ℤ) ≤ 90) := by
  with_unfolding_all decide

theorem sorted_strict_of_nodup {l : List OrderEntry}
    (hs : List.Sorted dateLE l) (hnd : (l.map (fun e => e.order_date)).Nodup) :
    List.Sorted dateLT l := by
  have hne : l.Pairwise (fun a b => a.order_date ≠ b.order_date) := List.pairwise_map.mp hnd
  exact (hs.and hne).imp fun hab => lt_of_le_of_ne hab.1 hab.2

theorem sortByDate_eq_of_perm {h₁ h₂ : List OrderEntry} (hperm : h₁.Perm h₂)
    (hnd : (h₁.map (fun e => e.order_date)).Nodup) :
    sortByDate h₁ = sortByDate h₂ := by
  have hp₁ : (sortByDate h₁).Perm h₁ := List.perm_insertionSort dateLE h₁
  have hp₂ : (sortByDate h₂).Perm h₂ := List.perm_insertionSort dateLE h₂
  have hperm' : (sortByDate h₁).Perm (sortByDate h₂) := hp₁.trans (hperm.trans hp₂.symm)
  have hnd₁ : ((sortByDate h₁).map (fun e => e.order_date)).Nodup :=
    (hp₁.map (fun e => e.order_date)).nodup_iff.mpr hnd
  have hnd₂ : ((sortByDate h₂).map (fun e => e.order_date)).Nodup :=
    (hp₂.map (fun e => e.order_date)).nodup_iff.mpr ((hperm.map (fun e => e.order_date)).nodup_iff.mp hnd)
  exact List.eq_of_perm_of_sorted hperm'
    (sorted_strict_of_nodup (List.sorted_insertionSort dateLE h₁) hnd₁)
    (sorted_strict_of_nodup (List.sorted_insertionSort dateLE h₂) hnd₂)

theorem predict_depletion_core (today : ℤ) (uid mid : String) (h : List OrderEntry) :
    (ForecastAgent.predict_depletion today uid mid h).map toCore =
      ForecastAgent.predictCoreAux today uid mid h.length (sortByDate h) := by
  simp only [ForecastAgent.predict_depletion, ForecastAgent.predict_depletionE,
    ForecastAgent.predictCoreAux]
  by_cases hlen : h.length < PREDICTION_MIN_ORDERS
  · simp only [if_pos hlen]
    rfl
  · simp only [if_neg hlen]
    by_cases hle : (ForecastAgent.calculate_consumption_rate (sortByDate h)).le0 = true
    · simp only [if_pos hle]
      rfl
    · simp only [if_neg hle]
      cases hl : (sortByDate h).getLast? with
      | none => rfl
      | some last =>
        dsimp only
        cases hd : pfloorDays (PFloat.div (.val (last.quantity : ℚ))
            (ForecastAgent.calculate_consumption_rate (sortByDate h))) with
        | none => rfl
        | some d => rfl

/-- C7 (amended): for histories with pairwise distinct order dates, every
field of the prediction except historical_data is invariant under
permutation of the caller's list; historical_data echoes the caller's list
verbatim, so the full output is order-sensitive (see the counterexample),
and with duplicate dates even core fields can differ since pandas' sort
leaves the tie order unspecified. -/
theorem spec_c7 (today : ℤ) (uid mid : String) (h₁ h₂ : List OrderEntry)
    (hperm : h₁.Perm h₂) (hnd : (h₁.map (fun e => e.order_date)).Nodup) :
    (ForecastAgent.predict_depletion today uid mid h₁).map toCore =
      (ForecastAgent.predict_depletion today uid mid h₂).map toCore := by
  rw [predict_depletion_core, predict_depletion_core, sortByDate_eq_of_perm hperm hnd,
    hperm.length_eq]

/-- C7 witness: the permutation invariance of the core fields at a
concrete 3-order history supplied in ascending and in descending order. -/
theorem spec_c7_witness :
    (ForecastAgent.predict_depletion 0 "u" "m" histPerm).map toCore =
      (ForecastAgent.predict_depletion 0 "u" "m" histPermRev).map toCore :=
  spec_c7 0 "u" "m" histPerm histPermRev (by with_unfolding_all decide)
    (by with_unfolding_all decide)

/-- C7 counterexample: the same two inputs are a permutation of each other
yet the full predictions differ (their historical_data fields echo the two
different input orderings), refuting identical output on every part of the
result. -/
theorem spec_c7_cex :
    histPerm.Perm histPermRev ∧
    ForecastAgent.predict_depletion 0 "u" "m" histPerm ≠
      ForecastAgent.predict_depletion 0 "u" "m" histPermRev := by
  with_unfolding_all decide

theorem predictCoreAux_fields (today : ℤ) (uid mid : String) (n : ℕ) (df : List OrderEntry)
    (c : PredictionCore) (hc : ForecastAgent.predictCoreAux today uid mid n df = some c) :
    ∃ last d, df.getLast? = some last ∧
      pfloorDays (PFloat.div (.val (last.quantity : ℚ))
        (ForecastAgent.calculate_consumption_rate df)) = some d ∧
      c.last_order_date = last.order_date ∧ c.last_order_quantity = last.quantity ∧
      c.predicted_depletion_date = last.order_date + d ∧
      c.suggested_quantity = truncQ (((((lastN 3 df).map (fun e => e.quantity)).sum : ℤ) : ℚ) /
        (((lastN 3 df).map (fun e => e.quantity)).length : ℚ)) := by
  simp only [ForecastAgent.predictCoreAux] at hc
  split at hc
  · cases hc
  · split at hc
    · cases hc
    · split at hc
      · cases hc
      · next last heq =>
        split at hc
        · cases hc
        · next d heq2 =>
          injection hc with hcc
          subst hcc
          exact ⟨last, d, heq, heq2, rfl, rfl, rfl, rfl⟩

/-- C8 (amended): the predicted depletion date is the last order date plus
the whole-day floor (not the nearest-integer rounding) resulting from
adding timedelta(days = last_order_quantity / rate) to a date. -/
theorem spec_c8 (today : ℤ) (uid mid : String) (h : List OrderEntry)
    (p : DepletionPrediction)
    (hp : ForecastAgent.predict_depletion today uid mid h = some p) :
    pfloorDays (PFloat.div (.val (p.last_order_quantity : ℚ))
        (ForecastAgent.calculate_consumption_rate (sortByDate h))) =
      some (p.predicted_depletion_date - p.last_order_date) := by
  have hc : ForecastAgent.predictCoreAux today uid mid h.length (sortByDate h) =
      some (toCore p) := by
    rw [← predict_depletion_core, hp]
    rfl
  obtain ⟨last, d, _, hd, h3, h1, h2, _⟩ := predictCoreAux_fields _ _ _ _ _ _ hc
  rw [show p.last_order_quantity = last.quantity from h1,
    show p.predicted_depletion_date = last.order_date + d from h2,
    show p.last_order_date = last.order_date from h3, hd]
  congr 1
  omega

/-- C8 witness: the floor relation at the history with rate 5/day and last
quantity 13 (days to deplete 2.6, floored to 2). -/
theorem spec_c8_witness :
    pfloorDays (PFloat.div (.val (predFrac.last_order_quantity : ℚ))
        (ForecastAgent.calculate_consumption_rate (sortByDate histFrac))) =
      some (predFrac.predicted_depletion_date - predFrac.last_order_date) :=
  spec_c8 0 "u" "m" histFrac predFrac (by with_unfolding_all decide)

/-- C8 counterexample: on histFrac the code predicts depletion on day 22
(= 20 + floor(2.6)), while rounding 13/5 to the nearest day as the claim
states would give day 23. -/
theorem spec_c8_cex :
    (ForecastAgent.predict_depletion 0 "u" "m" histFrac).map
      (fun p => (p.last_order_date, p.last_order_quantity, p.average_consumption_rate,
        p.predicted_depletion_date)) = some (20, 13, .val 5, 22) ∧
    (22 : ℤ) ≠ 20 + round ((13 : ℚ) / 5) := by
  with_unfolding_all decide

/-- C9 (amended): suggested_quantity is int(mean(last 3 quantities)), i.e.
the mean truncated toward zero, not rounded to the nearest integer. -/
theorem spec_c9 (today : ℤ) (uid mid : String) (h : List OrderEntry)
    (p : DepletionPrediction)
    (hp : ForecastAgent.predict_depletion today uid mid h = some p) :
    p.suggested_quantity =
      truncQ (((((lastN 3 (sortByDate h)).map (fun e => e.quantity)).sum : ℤ) : ℚ) /
        (((lastN 3 (sortByDate h)).map (fun e => e.quantity)).length : ℚ)) := by
  have hc : ForecastAgent.predictCoreAux today uid mid h.length (sortByDate h) =
      some (toCore p) := by
    rw [← predict_depletion_core, hp]
    rfl
  obtain ⟨last, d, _, _, _, _, _, hq⟩ := predictCoreAux_fields _ _ _ _ _ _ hc
  exact hq

/-- C9 witness: the truncation relation at the history whose last three
quantities are 10, 11, 11 (mean 32/3). -/
theorem spec_c9_witness :
    predThird.suggested_quantity =
      truncQ (((((lastN 3 (sortByDate histThird)).map (fun e => e.quantity)).sum : ℤ) : ℚ) /
        (((lastN 3 (sortByDate histThird)).map (fun e => e.quantity)).length : ℚ)) :=
  spec_c9 0 "u" "m" histThird predThird (by with_unfolding_all decide)

/-- C9 counterexample: the mean of the last three quantities is 32/3; the
code suggests int(32/3) = 10 while rounding to the nearest integer as the
claim states would give 11. -/
theorem spec_c9_cex :
    (ForecastAgent.predict_depletion 0 "u" "m" histThird).map
      (fun p => p.suggested_quantity) = some 10 ∧
    (10 : ℤ) ≠ round (((10 : ℚ) + 11 + 11) / 3) := by
  with_unfolding_all decide
